import Mathlib

/-!
Shallow embedding of `src/tools/basetool.py` (functions `execute_code` and
`execute_command`) and proofs about the claims of the specification.

The external world seen by the gateway is modelled explicitly:
* the file store is an association list from path to content, newest write first;
* the behaviour of the two subprocess invocations is an oracle function from the
  invocation arguments to either a completed process result or a raised
  exception (carried as its message string);
* a possible exception while opening/writing the code file is an oracle as well.

Python dictionaries returned by `execute_code` are embedded as association
lists from key to value, in the literal order of the source, so that claims
about the exact key set are statable.
-/

/-- Outcome of a completed child process: exit status together with the
captured standard output and standard error. -/
structure ProcResult where
  returncode : Int
  stdout : String
  stderr : String
deriving DecidableEq

/-- A Python exception, carried as its message string. -/
abbrev PyError := String

/-- The file store: an association list from path to content; a later write to
the same path shadows the earlier one (newest entry first). -/
abbrev FS := List (String × String)

/-- Reading a file: the newest entry for the path, if any. -/
def fsRead (fs : FS) (p : String) : Option String :=
  (fs.find? (fun kv => kv.1 == p)).map (fun kv => kv.2)

/-- Whether string `s` starts with string `p`, computed on the character
lists so that the kernel can evaluate it. -/
def strStarts (s p : String) : Bool :=
  s.data.take p.data.length == p.data

/-- Whether string `s` ends with string `p`, computed on the character lists
so that the kernel can evaluate it. -/
def strEnds (s p : String) : Bool :=
  s.data.drop (s.data.length - p.data.length) == p.data

/-- Embedding of `os.path.join` for two POSIX path components, as used at
line 41 of `basetool.py`. -/
def os_path_join (a b : String) : String :=
  if strStarts b "/" then b
  else if a = "" ∨ strEnds a "/" then a ++ b
  else a ++ "/" ++ b

/-- The fixed trailing instruction string appended to stdout on the success
branch of `execute_code` (line 61 of `basetool.py`). -/
def completion_suffix : String :=
  "\n\nIf you have completed all tasks, respond with FINAL ANSWER."

/-- Ambient environment of `execute_code`: the resolved storage root
(`STORAGE_PATH`, default `./data_storage/`), an oracle telling whether the
file write at a given path with a given content raises, and an oracle giving
the behaviour of `subprocess.run(['python', path])` as a function of the path
and of the content of the file at that path.  Making `runPython` a pure
function of path and content embeds the assumption that the child is
deterministic and has no external side effects. -/
structure CodeEnv where
  storage_path : String
  writeFails : String → String → Option PyError
  runPython : String → String → Except PyError ProcResult

/-- Observable outcome of one call to `execute_code`: the returned dictionary
(association list in source order), the file store after the call, and the
number of completed file writes and of child processes actually created. -/
structure CodeOutcome where
  ret : List (String × String)
  fs : FS
  writes : Nat
  spawned : Nat
deriving DecidableEq

/-- Embedding of `execute_code` (lines 21-78 of `basetool.py`).  The
`try` block is modelled by the two oracle match points: a write exception or a
spawn exception lands in the `except` branch, which returns the
`"Error occurred"` dictionary; on a completed run, return code 0 selects the
success dictionary and any other return code the `"Failed to execute"`
dictionary. -/
def execute_code (env : CodeEnv) (fs : FS)
    (input_code codefile_name : String) : CodeOutcome :=
  let code_file_path := os_path_join env.storage_path codefile_name
  match env.writeFails code_file_path input_code with
  | some e =>
      { ret := [("result", "Error occurred"), ("error", e),
                ("file_path", code_file_path)],
        fs := fs, writes := 0, spawned := 0 }
  | none =>
      let fs' := (code_file_path, input_code) :: fs
      match env.runPython code_file_path input_code with
      | Except.error e =>
          { ret := [("result", "Error occurred"), ("error", e),
                    ("file_path", code_file_path)],
            fs := fs', writes := 1, spawned := 0 }
      | Except.ok result =>
          if result.returncode = 0 then
            { ret := [("result", "Code executed successfully"),
                      ("output", result.stdout ++ completion_suffix),
                      ("file_path", code_file_path)],
              fs := fs', writes := 1, spawned := 1 }
          else
            { ret := [("result", "Failed to execute"),
                      ("error", result.stderr),
                      ("file_path", code_file_path)],
              fs := fs', writes := 1, spawned := 1 }

/-- What `execute_command` hands back to its caller: a normally returned
string, or an exception propagating out of the function. -/
inductive CmdRet where
  | normal (s : String)
  | raised (e : PyError)
deriving DecidableEq

/-- Whether a `CmdRet` is a propagated exception. -/
def CmdRet.isRaised : CmdRet → Bool
  | CmdRet.normal _ => false
  | CmdRet.raised _ => true

/-- Ambient environment of `execute_command`: the resolved `CONDA_PATH` and
`CONDA_ENV` configuration values and the behaviour of
`subprocess.run(full_command, shell=True, check=True, ...)` as a function of
the composed command line.  An `Except.ok` answer means the shell child ran to
completion with the given exit data; an `Except.error` answer means the spawn
itself raised (no child was created). -/
structure CmdEnv where
  conda_path : String
  conda_env : String
  runShell : String → Except PyError ProcResult

/-- Observable outcome of one call to `execute_command`: what the caller
receives, the exact command line passed to the shell runner, and the number of
child processes actually created. -/
structure CmdOutcome where
  ret : CmdRet
  invoked : String
  spawned : Nat
deriving DecidableEq

/-- Embedding of lines 102-104 of `basetool.py`: the composed command line
that is handed to the shell. -/
def full_command (env : CmdEnv) (command : String) : String :=
  let src := "source " ++ env.conda_path ++ "/etc/profile.d/conda.sh"
  let conda_activate := "conda activate " ++ env.conda_env
  src ++ " && " ++ conda_activate ++ " && " ++ command

/-- Embedding of `execute_command` (lines 80-122 of `basetool.py`).  With
`check=True`, a completed child with nonzero return code makes
`subprocess.run` raise `CalledProcessError`, which the `except` clause catches,
returning the string `"Error: " ++ stderr`; a zero return code returns
`result.stdout`; any other exception from the spawn is not caught by the
`except subprocess.CalledProcessError` clause and propagates. -/
def execute_command (env : CmdEnv) (command : String) : CmdOutcome :=
  match env.runShell (full_command env command) with
  | Except.error e =>
      { ret := CmdRet.raised e, invoked := full_command env command, spawned := 0 }
  | Except.ok result =>
      if result.returncode = 0 then
        { ret := CmdRet.normal result.stdout, invoked := full_command env command,
          spawned := 1 }
      else
        { ret := CmdRet.normal ("Error: " ++ result.stderr),
          invoked := full_command env command, spawned := 1 }

/-! Concrete environments used to instantiate theorems and to exhibit
counterexamples.  Paths and defaults follow `basetool.py`: storage root
`./data_storage/`, conda install `/home/e806/anaconda3`, conda context
`dcbot`. -/

/-- Environment whose write always succeeds and whose interpreter always
exits 0 printing `ok` with empty stderr. -/
def okEnv : CodeEnv :=
  { storage_path := "./data_storage/",
    writeFails := fun _ _ => none,
    runPython := fun _ _ => Except.ok ⟨0, "ok", ""⟩ }

/-- Environment whose write always succeeds and whose interpreter always
exits 1 after printing `partial` to stdout and `boom` to stderr. -/
def failEnv : CodeEnv :=
  { storage_path := "./data_storage/",
    writeFails := fun _ _ => none,
    runPython := fun _ _ => Except.ok ⟨1, "partial", "boom"⟩ }

/-- Environment whose file write always raises (message `disk full`). -/
def diskFullEnv : CodeEnv :=
  { storage_path := "./data_storage/",
    writeFails := fun _ _ => some "disk full",
    runPython := fun _ _ => Except.ok ⟨0, "", ""⟩ }

/-- Command environment whose shell child always exits 1 with stderr
`boom`. -/
def nonzeroCmdEnv : CmdEnv :=
  { conda_path := "/home/e806/anaconda3", conda_env := "dcbot",
    runShell := fun _ => Except.ok ⟨1, "", "boom"⟩ }

/-- Command environment whose shell child always exits 0 printing
`hello` followed by a newline. -/
def okCmdEnv : CmdEnv :=
  { conda_path := "/home/e806/anaconda3", conda_env := "dcbot",
    runShell := fun _ => Except.ok ⟨0, "hello\n", ""⟩ }

/-- Helper: when the write does not raise, the file store after
`execute_code` maps the derived path to the submitted code, on every
execution branch. -/
theorem fs_after_execute_code (env : CodeEnv) (fs : FS) (c n : String)
    (hw : env.writeFails (os_path_join env.storage_path n) c = none) :
    fsRead (execute_code env fs c n).fs (os_path_join env.storage_path n) =
      some c := by
  simp only [execute_code]
  rw [hw]
  rcases hr : env.runPython (os_path_join env.storage_path n) c with e | r
  · simp [fsRead, List.find?]
  · by_cases h0 : r.returncode = 0 <;> simp [h0, fsRead, List.find?]

/-- Helper: the dictionary returned by `execute_code` does not depend on the
prior contents of the file store. -/
theorem ret_fs_independent (env : CodeEnv) (fs₁ fs₂ : FS) (c n : String) :
    (execute_code env fs₁ c n).ret = (execute_code env fs₂ c n).ret := by
  simp only [execute_code]
  rcases hw : env.writeFails (os_path_join env.storage_path n) c with _ | e
  · rcases hr : env.runPython (os_path_join env.storage_path n) c with e | r
    · simp
    · by_cases h0 : r.returncode = 0 <;> simp [h0]
  · simp

/-- Claim C1 as stated is false: for a CommandLine submission whose child
exits nonzero, `execute_command` does NOT propagate an exception to the
caller; the `CalledProcessError` is caught and the caller receives the normal
string return value `"Error: " ++ stderr`.  Concretely, with a shell oracle
exiting 1 with stderr `boom`, the call returns normally. -/
theorem C1_counterexample :
    (execute_command nonzeroCmdEnv "ls").ret = CmdRet.normal "Error: boom" ∧
    CmdRet.isRaised (execute_command nonzeroCmdEnv "ls").ret = false ∧
    (execute_command nonzeroCmdEnv "ls").spawned = 1 := by
  refine ⟨by decide, by decide, by decide⟩

/-- Claim C1 (amended): for every CommandLine submission whose child process
runs and exits with a nonzero code, the `CalledProcessError` raised by the
runner is caught inside `execute_command`, and the caller receives the
in-band string `"Error: " ++ stderr` as a normal return value; no exception
reaches the caller on this path. -/
theorem C1_nonzero_exit_caught (env : CmdEnv) (cmd : String) (r : ProcResult)
    (hrun : env.runShell (full_command env cmd) = Except.ok r)
    (hne : r.returncode ≠ 0) :
    (execute_command env cmd).ret = CmdRet.normal ("Error: " ++ r.stderr) := by
  simp only [execute_command]
  rw [hrun]
  simp [hne]

/-- Witness for C1 at a concrete input. -/
theorem C1_witness :
    nonzeroCmdEnv.runShell (full_command nonzeroCmdEnv "ls") =
      Except.ok ⟨1, "", "boom"⟩ ∧
    (1 : Int) ≠ 0 ∧
    (execute_command nonzeroCmdEnv "ls").ret =
      CmdRet.normal ("Error: " ++ "boom") :=
  ⟨rfl, by decide,
   C1_nonzero_exit_caught nonzeroCmdEnv "ls" ⟨1, "", "boom"⟩ rfl
     (by decide)⟩

/-- Claim C2: any exception during persist or spawn is caught at the boundary
of `execute_code` and converted to the structured dictionary whose `result`
field is `Error occurred` and whose `error` field is the exception message;
the caller never receives an unhandled fault on this path (the embedded
function is total and returns a dictionary in every case). -/
theorem C2_exception_to_error_result (env : CodeEnv) (fs : FS) (c n : String) :
    (∀ e, env.writeFails (os_path_join env.storage_path n) c = some e →
      (execute_code env fs c n).ret =
        [("result", "Error occurred"), ("error", e),
         ("file_path", os_path_join env.storage_path n)]) ∧
    (env.writeFails (os_path_join env.storage_path n) c = none →
      ∀ e, env.runPython (os_path_join env.storage_path n) c = Except.error e →
        (execute_code env fs c n).ret =
          [("result", "Error occurred"), ("error", e),
           ("file_path", os_path_join env.storage_path n)]) := by
  constructor
  · intro e he
    simp only [execute_code]
    rw [he]
  · intro hw e he
    simp only [execute_code]
    rw [hw, he]

/-- Witness for C2 at a concrete input: a write raising `disk full`. -/
theorem C2_witness :
    diskFullEnv.writeFails (os_path_join diskFullEnv.storage_path "f.py")
      "print(1)" = some "disk full" ∧
    (execute_code diskFullEnv [] "print(1)" "f.py").ret =
      [("result", "Error occurred"), ("error", "disk full"),
       ("file_path", os_path_join diskFullEnv.storage_path "f.py")] :=
  ⟨by decide,
   (C2_exception_to_error_result diskFullEnv [] "print(1)" "f.py").1
     "disk full" (by decide)⟩

/-- Claim C3: when the write does not raise, `execute_code` persists the
submitted body at the storage root joined with the caller-supplied name, and
after the call the file store maps that path to exactly the body, on every
execution branch. -/
theorem C3_artifact_persisted (env : CodeEnv) (fs : FS) (c n : String)
    (hw : env.writeFails (os_path_join env.storage_path n) c = none) :
    fsRead (execute_code env fs c n).fs (os_path_join env.storage_path n) =
      some c :=
  fs_after_execute_code env fs c n hw

/-- Witness for C3 at a concrete input. -/
theorem C3_witness :
    okEnv.writeFails (os_path_join okEnv.storage_path "f.py") "print(1)" =
      none ∧
    fsRead (execute_code okEnv [] "print(1)" "f.py").fs
      (os_path_join okEnv.storage_path "f.py") = some "print(1)" :=
  ⟨by decide, C3_artifact_persisted okEnv [] "print(1)" "f.py" (by decide)⟩

/-- Claim C4 as stated is false in its stdout clause: on nonzero exit the
returned dictionary carries the stderr of the child verbatim in its `error`
field, but the stdout of the child is discarded — the dictionary has no
`output` (or any other) field holding it.  Concretely, with a child printing
`partial` and failing with stderr `boom`, nothing in the result mentions
`partial`. -/
theorem C4_counterexample :
    (execute_code failEnv [] "x = 1/0" "f.py").ret =
      [("result", "Failed to execute"), ("error", "boom"),
       ("file_path", "./data_storage/f.py")] ∧
    List.lookup "output" (execute_code failEnv [] "x = 1/0" "f.py").ret =
      none ∧
    ¬ ("partial" ∈ (execute_code failEnv [] "x = 1/0" "f.py").ret.map
        Prod.snd) := by
  refine ⟨by decide, by decide, by decide⟩

/-- Claim C4 (amended): on nonzero exit of a completed child, the dictionary
returned by `execute_code` has `result = Failed to execute`, its `error`
field is the stderr of the child verbatim, and no exception propagates past
the boundary; the stdout of the child is not included in the result. -/
theorem C4_failure_result (env : CodeEnv) (fs : FS) (c n : String)
    (r : ProcResult)
    (hw : env.writeFails (os_path_join env.storage_path n) c = none)
    (hr : env.runPython (os_path_join env.storage_path n) c = Except.ok r)
    (hne : r.returncode ≠ 0) :
    (execute_code env fs c n).ret =
      [("result", "Failed to execute"), ("error", r.stderr),
       ("file_path", os_path_join env.storage_path n)] := by
  simp only [execute_code]
  rw [hw, hr]
  simp [hne]

/-- Witness for C4 at a concrete input. -/
theorem C4_witness :
    failEnv.writeFails (os_path_join failEnv.storage_path "f.py") "x = 1/0" =
      none ∧
    failEnv.runPython (os_path_join failEnv.storage_path "f.py") "x = 1/0" =
      Except.ok ⟨1, "partial", "boom"⟩ ∧
    (1 : Int) ≠ 0 ∧
    (execute_code failEnv [] "x = 1/0" "f.py").ret =
      [("result", "Failed to execute"), ("error", "boom"),
       ("file_path", os_path_join failEnv.storage_path "f.py")] :=
  ⟨rfl, rfl, by decide,
   C4_failure_result failEnv [] "x = 1/0" "f.py" ⟨1, "partial", "boom"⟩ rfl
     rfl (by decide)⟩

/-- Claim C5 as stated is false in its stderr clause: the success dictionary
returned by `execute_code` has exactly the fields `result`, `output` and
`file_path`; it contains no `stderr` field at all, so the stderr field cannot
equal the empty string.  Concretely, with a child exiting 0, printing `ok`
and writing nothing to stderr, the lookup of `stderr` in the result yields
nothing. -/
theorem C5_counterexample :
    (execute_code okEnv [] "print(1)" "g.py").ret =
      [("result", "Code executed successfully"),
       ("output", "ok" ++ completion_suffix),
       ("file_path", "./data_storage/g.py")] ∧
    List.lookup "stderr" (execute_code okEnv [] "print(1)" "g.py").ret =
      none := by
  refine ⟨by decide, by decide⟩

/-- Claim C5 (amended): on exit code 0, the dictionary returned by
`execute_code` has `result = Code executed successfully` and its `output`
field is the captured stdout of the child with the fixed completion-signal
suffix appended; the result carries no stderr field (the stderr of the child
is discarded on success). -/
theorem C5_success_result (env : CodeEnv) (fs : FS) (c n : String)
    (r : ProcResult)
    (hw : env.writeFails (os_path_join env.storage_path n) c = none)
    (hr : env.runPython (os_path_join env.storage_path n) c = Except.ok r)
    (h0 : r.returncode = 0) :
    (execute_code env fs c n).ret =
      [("result", "Code executed successfully"),
       ("output", r.stdout ++ completion_suffix),
       ("file_path", os_path_join env.storage_path n)] := by
  simp only [execute_code]
  rw [hw, hr]
  simp [h0]

/-- Witness for C5 at a concrete input. -/
theorem C5_witness :
    okEnv.writeFails (os_path_join okEnv.storage_path "g.py") "print(1)" =
      none ∧
    okEnv.runPython (os_path_join okEnv.storage_path "g.py") "print(1)" =
      Except.ok ⟨0, "ok", ""⟩ ∧
    (0 : Int) = 0 ∧
    (execute_code okEnv [] "print(1)" "g.py").ret =
      [("result", "Code executed successfully"),
       ("output", "ok" ++ completion_suffix),
       ("file_path", os_path_join okEnv.storage_path "g.py")] :=
  ⟨rfl, rfl, rfl,
   C5_success_result okEnv [] "print(1)" "g.py" ⟨0, "ok", ""⟩ rfl rfl rfl⟩

/-- Claim C6 as stated is false on the error path where the file write
raises: `execute_code` then reaches the `except` branch before any spawn, so
zero child processes are created and zero writes complete — not exactly one
of each. -/
theorem C6_counterexample :
    (execute_code diskFullEnv [] "print(1)" "h.py").spawned = 0 ∧
    (execute_code diskFullEnv [] "print(1)" "h.py").writes = 0 := by
  refine ⟨by decide, by decide⟩

/-- Claim C6 (amended): per call, at most one file write completes and at
most one child process is created (for both operations); exactly one of each
happens on the SourcePayload path whenever neither the persist step nor the
spawn raises, and exactly one child process is created on the CommandLine
path whenever the shell invocation does not raise. -/
theorem C6_effect_counts (env : CodeEnv) (fs : FS) (c n : String)
    (cenv : CmdEnv) (cmd : String) :
    (execute_code env fs c n).writes ≤ 1 ∧
    (execute_code env fs c n).spawned ≤ 1 ∧
    (execute_command cenv cmd).spawned ≤ 1 ∧
    (∀ r, env.writeFails (os_path_join env.storage_path n) c = none →
      env.runPython (os_path_join env.storage_path n) c = Except.ok r →
      (execute_code env fs c n).writes = 1 ∧
        (execute_code env fs c n).spawned = 1) ∧
    (∀ r, cenv.runShell (full_command cenv cmd) = Except.ok r →
      (execute_command cenv cmd).spawned = 1) := by
  refine ⟨?_, ?_, ?_, ?_, ?_⟩
  · simp only [execute_code]
    rcases hw : env.writeFails (os_path_join env.storage_path n) c with _ | e
    · rcases hr : env.runPython (os_path_join env.storage_path n) c with e | r
      · simp
      · by_cases h0 : r.returncode = 0 <;> simp [h0]
    · simp
  · simp only [execute_code]
    rcases hw : env.writeFails (os_path_join env.storage_path n) c with _ | e
    · rcases hr : env.runPython (os_path_join env.storage_path n) c with e | r
      · simp
      · by_cases h0 : r.returncode = 0 <;> simp [h0]
    · simp
  · simp only [execute_command]
    rcases hs : cenv.runShell (full_command cenv cmd) with e | r
    · simp
    · by_cases h0 : r.returncode = 0 <;> simp [h0]
  · intro r hw hr
    simp only [execute_code]
    rw [hw, hr]
    constructor
    · by_cases h0 : r.returncode = 0 <;> simp [h0]
    · by_cases h0 : r.returncode = 0 <;> simp [h0]
  · intro r hs
    simp only [execute_command]
    rw [hs]
    by_cases h0 : r.returncode = 0 <;> simp [h0]

/-- Witness for C6 at concrete inputs: both hypothesised conjuncts
instantiated on successful runs. -/
theorem C6_witness :
    okEnv.writeFails (os_path_join okEnv.storage_path "w.py") "print(1)" =
      none ∧
    okEnv.runPython (os_path_join okEnv.storage_path "w.py") "print(1)" =
      Except.ok ⟨0, "ok", ""⟩ ∧
    okCmdEnv.runShell (full_command okCmdEnv "echo hello") =
      Except.ok ⟨0, "hello\n", ""⟩ ∧
    ((execute_code okEnv [] "print(1)" "w.py").writes = 1 ∧
      (execute_code okEnv [] "print(1)" "w.py").spawned = 1) ∧
    (execute_command okCmdEnv "echo hello").spawned = 1 :=
  ⟨rfl, rfl, rfl,
   (C6_effect_counts okEnv [] "print(1)" "w.py" okCmdEnv "echo hello").2.2.2.1
     ⟨0, "ok", ""⟩ rfl rfl,
   (C6_effect_counts okEnv [] "print(1)" "w.py" okCmdEnv "echo hello").2.2.2.2
     ⟨0, "hello\n", ""⟩ rfl⟩

/-- Helper: string append is associative, via the character lists. -/
theorem str_append_assoc (a b c : String) : a ++ b ++ c = a ++ (b ++ c) :=
  String.ext (by simp [String.data_append, List.append_assoc])

/-- Claim C7: the command line handed to the shell by `execute_command` is
exactly the submitted text prefixed with the activation sequence of the
resolved environment, i.e. the string
`source <conda_path>/etc/profile.d/conda.sh && conda activate <conda_env> &&
<text>`. -/
theorem C7_composed_command_line (cenv : CmdEnv) (cmd : String) :
    (execute_command cenv cmd).invoked =
      "source " ++ cenv.conda_path ++ "/etc/profile.d/conda.sh" ++ " && " ++
        "conda activate " ++ cenv.conda_env ++ " && " ++ cmd := by
  have h : (execute_command cenv cmd).invoked = full_command cenv cmd := by
    simp only [execute_command]
    rcases hs : cenv.runShell (full_command cenv cmd) with e | r
    · simp
    · by_cases h0 : r.returncode = 0 <;> simp [h0]
  rw [h]
  simp only [full_command]
  simp only [str_append_assoc]

/-- Claim C8: two sequential SourcePayload submissions with the same name and
different bodies leave the artifact holding exactly the second body, when the
second write does not raise; nothing of the first body persists at that
path. -/
theorem C8_overwrite (env : CodeEnv) (fs : FS) (n b₁ b₂ : String)
    (hw : env.writeFails (os_path_join env.storage_path n) b₂ = none) :
    fsRead (execute_code env (execute_code env fs b₁ n).fs b₂ n).fs
      (os_path_join env.storage_path n) = some b₂ :=
  fs_after_execute_code env (execute_code env fs b₁ n).fs b₂ n hw

/-- Witness for C8 at a concrete input: `a = 1` then `a = 2` under the same
name. -/
theorem C8_witness :
    okEnv.writeFails (os_path_join okEnv.storage_path "s.py") "a = 2" =
      none ∧
    fsRead (execute_code okEnv (execute_code okEnv [] "a = 1" "s.py").fs
        "a = 2" "s.py").fs (os_path_join okEnv.storage_path "s.py") =
      some "a = 2" :=
  ⟨rfl, C8_overwrite okEnv [] "s.py" "a = 1" "a = 2" rfl⟩

/-- Claim C9: with a deterministic, side-effect-free child (embedded by the
interpreter oracle being a pure function of the artifact path and content),
submitting the same name and body twice in sequence returns two dictionaries
that are identical — in particular identical status, output and error
fields. -/
theorem C9_idempotent_rerun (env : CodeEnv) (fs : FS) (c n : String) :
    (execute_code env (execute_code env fs c n).fs c n).ret =
      (execute_code env fs c n).ret :=
  ret_fs_independent env (execute_code env fs c n).fs fs c n

/-- Claim C10: for every input and oracle, the dictionary returned by
`execute_code` has its `result` field equal to one of the three fixed
strings; the success dictionary has exactly the keys `result`, `output`,
`file_path` in that order, and both error dictionaries have exactly the keys
`result`, `error`, `file_path` — no stdout or output key on failure and no
stderr key in any branch. -/
theorem C10_result_shape (env : CodeEnv) (fs : FS) (c n : String) :
    ((execute_code env fs c n).ret.map Prod.fst =
        ["result", "output", "file_path"] ∧
      List.lookup "result" (execute_code env fs c n).ret =
        some "Code executed successfully")
    ∨ ((execute_code env fs c n).ret.map Prod.fst =
        ["result", "error", "file_path"] ∧
      (List.lookup "result" (execute_code env fs c n).ret =
          some "Failed to execute" ∨
        List.lookup "result" (execute_code env fs c n).ret =
          some "Error occurred")) := by
  simp only [execute_code]
  rcases hw : env.writeFails (os_path_join env.storage_path n) c with _ | e
  · rcases hr : env.runPython (os_path_join env.storage_path n) c with e | r
    · right
      simp [List.lookup]
    · by_cases h0 : r.returncode = 0
      · left
        simp [h0, List.lookup]
      · right
        simp [h0, List.lookup]
  · right
    simp [List.lookup]
